import Mathlib

/-!
# SmartHab-Connect: the configuration header `src/config.h`

The repository consists of one header that defines thirteen namespace-scope
objects: five `const char*` pointers initialised from string literals, two
`const float` calibration offsets and six `const int` calibration and timing
constants.  The header contains no function, no check and no error path.

The embedding follows the header:

* `ConfigLiterals` is what the deployer writes to the right of each `=`;
* `Globals` is the set of objects the header defines;
* `globalsOf` is the static initialisation (conversion of every initialiser to
  the declared type of its object: an integer literal to `int`, a floating
  literal first to `double` and then to `float`);
* `read` and `assign` are the two things a translation unit that includes the
  header can do with one of the objects.
-/

namespace SmartHab

/-! ## Machine types of the ESP32 target -/

/-- Width in bits of `int` on the ESP32. -/
def INT_BITS : Nat := 32

/-- Value held by an `int` object initialised from an integer literal of value
`z`: a literal that does not fit is reduced modulo `2 ^ 32` into the range
`-2 ^ 31 .. 2 ^ 31 - 1`. -/
def toInt32 (z : Int) : Int :=
  (z + 2 ^ (INT_BITS - 1)) % 2 ^ INT_BITS - 2 ^ (INT_BITS - 1)

/-- The literal value `z` is representable in `int`. -/
def fitsInt32 (z : Int) : Prop :=
  -(2 ^ (INT_BITS - 1)) ≤ z ∧ z < 2 ^ (INT_BITS - 1)

instance (z : Int) : Decidable (fitsInt32 z) := by
  unfold fitsInt32; infer_instance

/-- A `float` object, held as its IEEE-754 binary32 bit pattern
(1 sign bit, 8 exponent bits, 23 fraction bits). -/
structure F32 where
  bits : Nat
  deriving DecidableEq, Repr

namespace F32

/-- Sign bit. -/
def sign (x : F32) : Nat := x.bits / 2 ^ 31 % 2

/-- Biased exponent field. -/
def exponent (x : F32) : Nat := x.bits / 2 ^ 23 % 256

/-- Fraction field. -/
def fraction (x : F32) : Nat := x.bits % 2 ^ 23

/-- Not-a-number: exponent field all ones, fraction non-zero. -/
def isNaN (x : F32) : Bool := x.exponent == 255 && x.fraction != 0

/-- Infinity of either sign: exponent field all ones, fraction zero. -/
def isInf (x : F32) : Bool := x.exponent == 255 && x.fraction == 0

/-- Finite: neither NaN nor infinite. -/
def isFinite (x : F32) : Bool := x.exponent != 255

/-- Rational number denoted by a finite pattern (`none` for NaN and infinities). -/
def toRat? (x : F32) : Option ℚ :=
  if x.exponent = 255 then none
  else
    let m : ℚ := if x.exponent = 0 then (x.fraction : ℚ) * 2 / 2 ^ 150
                 else ((2 ^ 23 + x.fraction : Nat) : ℚ) * 2 ^ x.exponent / 2 ^ 150
    some (if x.sign = 1 then -m else m)

/-- Pattern of `0.0`. -/
def zero : F32 := ⟨0x00000000⟩

/-- Pattern of `-1.5`. -/
def negOneAndHalf : F32 := ⟨0xBFC00000⟩

/-- Pattern of positive infinity. -/
def posInf : F32 := ⟨0x7F800000⟩

/-- Pattern of a quiet NaN. -/
def quietNaN : F32 := ⟨0x7FC00000⟩

end F32

/-! ## Conversion of a floating literal to `float`

`const float TEMP_OFFSET = 0.0;` has a literal of type `double` on the right:
the compiler rounds the decimal to binary64 and then converts that value to
binary32, both times to nearest with ties to even. -/

/-- A decimal floating literal together with the unary minus that may precede
it: the number `± digits * 10 ^ exp10`.  `0.0` is `⟨false, 0, -1⟩`, `-1.5` is
`⟨true, 15, -1⟩`, `0.1` is `⟨false, 1, -1⟩`. -/
structure Decimal where
  negative : Bool
  digits : Nat
  exp10 : Int
  deriving DecidableEq, Repr

/-- Numerator of the absolute value of the literal. -/
def Decimal.num (d : Decimal) : Nat := d.digits * 10 ^ d.exp10.toNat

/-- Denominator of the absolute value of the literal. -/
def Decimal.den (d : Decimal) : Nat := 10 ^ (-d.exp10).toNat

/-- The real number the literal denotes. -/
def Decimal.value (d : Decimal) : ℚ :=
  (if d.negative then -1 else 1) * (d.num : ℚ) / (d.den : ℚ)

/-- What can stand to the right of `=` in the definition of a `float` object:
a decimal literal, or one of the `math.h` constants `NAN` and `INFINITY`
(the latter possibly negated). -/
inductive FloatInit where
  | literal (d : Decimal)
  | nan
  | infinity (negative : Bool)
  deriving DecidableEq, Repr

/-- The real number written, if the initialiser denotes one. -/
def FloatInit.value? : FloatInit → Option ℚ
  | .literal d => some d.value
  | .nan => none
  | .infinity _ => none

/-- The initialiser denotes a (finite) real number. -/
def FloatInit.isFiniteReal : FloatInit → Bool
  | .literal _ => true
  | .nan => false
  | .infinity _ => false

/-- Floor of the binary logarithm, by halving; `fuel` bounds the number of halvings. -/
def ilog2Aux : Nat → Nat → Nat
  | 0, _ => 0
  | fuel + 1, n => if n < 2 then 0 else ilog2Aux fuel (n / 2) + 1

/-- Floor of the binary logarithm of `n` (0 for `n = 0`). -/
def ilog2 (n : Nat) : Nat := ilog2Aux n n

/-- The integer nearest to `a / b`, ties going to the even one. -/
def roundHalfEven (a b : Nat) : Nat :=
  if 2 * (a % b) < b then a / b
  else if b < 2 * (a % b) then a / b + 1
  else if a / b % 2 = 0 then a / b else a / b + 1

/-- Magnitude pattern of infinity in a binary format with a `p`-bit
significand (hidden bit included) and a `w`-bit exponent field. -/
def infBits (p w : Nat) : Nat := (2 ^ w - 1) * 2 ^ (p - 1)

/-- Magnitude pattern (sign bit left out) of the value nearest to `a / b` in
the binary format with a `p`-bit significand, exponent bias `bias` and a
`w`-bit exponent field, ties to even.  The ratio is first scaled by
`2 ^ (bias + p - 2)`, so that the smallest subnormal becomes 1; `t` is then the
exponent field minus one (0 for subnormals), the rounded significand is added
to `t * 2 ^ (p - 1)` so that a carry moves into the exponent field, and what
reaches the pattern of infinity is infinity. -/
def roundMagnitude (p bias w a b : Nat) : Nat :=
  min (((ilog2 (a * 2 ^ (bias + p - 2) / b) - (p - 1)) * 2 ^ (p - 1)) +
      roundHalfEven (a * 2 ^ (bias + p - 2))
        (b * 2 ^ (ilog2 (a * 2 ^ (bias + p - 2) / b) - (p - 1))))
    (infBits p w)

/-- Value of a finite magnitude pattern in units of the smallest subnormal. -/
def scaled (p bits : Nat) : Nat :=
  if bits / 2 ^ (p - 1) = 0 then bits % 2 ^ (p - 1)
  else (2 ^ (p - 1) + bits % 2 ^ (p - 1)) * 2 ^ (bits / 2 ^ (p - 1) - 1)

/-- Magnitude pattern of the `double` a decimal literal denotes. -/
def doubleBits (d : Decimal) : Nat := roundMagnitude 53 1023 11 d.num d.den

/-- Conversion of a non-negative `double` (magnitude pattern) to `float`
(magnitude pattern).  The smallest `double` subnormal is `2 ^ (-1074)`. -/
def floatBitsOfDouble (m : Nat) : Nat :=
  if m = infBits 53 11 then infBits 24 8
  else roundMagnitude 24 127 8 (scaled 53 m) (2 ^ 1074)

/-- The `float` a decimal literal initialises: literal to `double`, unary
minus, `double` to `float`. -/
def floatOfDecimal (d : Decimal) : F32 :=
  ⟨(if d.negative then 2 ^ 31 else 0) + floatBitsOfDouble (doubleBits d)⟩

/-- The `float` an initialiser yields. -/
def toFloat32 : FloatInit → F32
  | .literal d => floatOfDecimal d
  | .nan => F32.quietNaN
  | .infinity negative => ⟨(if negative then 2 ^ 31 else 0) + infBits 24 8⟩

/-- The literal `0.0`. -/
def zeroLiteral : FloatInit := .literal ⟨false, 0, -1⟩

/-- The literal `-1.5`. -/
def minusOneAndHalfLiteral : FloatInit := .literal ⟨true, 15, -1⟩

/-- The literal `0.1`. -/
def tenthLiteral : FloatInit := .literal ⟨false, 1, -1⟩

/-- The literal `1e39`. -/
def hugeLiteral : FloatInit := .literal ⟨false, 1, 39⟩

/-! ## The header -/

/-- Initialisers written in `config.h`, one per object, in declaration order.
Integer initialisers are the mathematical value of the literal, floating
initialisers are the literal as written. -/
structure ConfigLiterals where
  ssid : String
  password : String
  apiKey : String
  channelId : String
  bluetoothDeviceName : String
  TEMP_OFFSET : FloatInit
  HUMIDITY_OFFSET : FloatInit
  SOIL_DRY_VALUE : Int
  SOIL_WET_VALUE : Int
  LCD_BACKLIGHT_TIMEOUT : Int
  MENU_TIMEOUT : Int
  WIFI_TIMEOUT : Int
  API_REQUEST_TIMEOUT : Int
  deriving DecidableEq, Repr

/-- Objects defined by `config.h`, each holding a value of its declared type. -/
structure Globals where
  ssid : String
  password : String
  apiKey : String
  channelId : String
  bluetoothDeviceName : String
  TEMP_OFFSET : F32
  HUMIDITY_OFFSET : F32
  SOIL_DRY_VALUE : Int
  SOIL_WET_VALUE : Int
  LCD_BACKLIGHT_TIMEOUT : Int
  MENU_TIMEOUT : Int
  WIFI_TIMEOUT : Int
  API_REQUEST_TIMEOUT : Int
  deriving DecidableEq, Repr

/-- The initialisers of `config.h` as it stands in the repository. -/
def shipped : ConfigLiterals :=
  { ssid := "YOUR_WIFI_SSID"
    password := "YOUR_WIFI_PASSWORD"
    apiKey := "YOUR_YOUTUBE_API_KEY"
    channelId := "YOUR_CHANNEL_ID"
    bluetoothDeviceName := "ESP32_Dashboard"
    TEMP_OFFSET := zeroLiteral
    HUMIDITY_OFFSET := zeroLiteral
    SOIL_DRY_VALUE := 4095
    SOIL_WET_VALUE := 0
    LCD_BACKLIGHT_TIMEOUT := 30000
    MENU_TIMEOUT := 60000
    WIFI_TIMEOUT := 15000
    API_REQUEST_TIMEOUT := 10000 }

/-- Static initialisation of the thirteen objects: a pointer is set to its
string literal, a `float` to its initialiser converted to `float`, an `int`
to the literal converted to `int`.  Nothing is compared with anything. -/
def globalsOf (l : ConfigLiterals) : Globals :=
  { ssid := l.ssid
    password := l.password
    apiKey := l.apiKey
    channelId := l.channelId
    bluetoothDeviceName := l.bluetoothDeviceName
    TEMP_OFFSET := toFloat32 l.TEMP_OFFSET
    HUMIDITY_OFFSET := toFloat32 l.HUMIDITY_OFFSET
    SOIL_DRY_VALUE := toInt32 l.SOIL_DRY_VALUE
    SOIL_WET_VALUE := toInt32 l.SOIL_WET_VALUE
    LCD_BACKLIGHT_TIMEOUT := toInt32 l.LCD_BACKLIGHT_TIMEOUT
    MENU_TIMEOUT := toInt32 l.MENU_TIMEOUT
    WIFI_TIMEOUT := toInt32 l.WIFI_TIMEOUT
    API_REQUEST_TIMEOUT := toInt32 l.API_REQUEST_TIMEOUT }

/-- Failure kinds named by the specification.  `config.h` declares none of them
and has no statement that could raise one; the type exists so that statements
about failure can be written down and tested against the header. -/
inductive ConfigError where
  | UnconfiguredCredentialError (field : String)
  | InvalidCalibrationRangeError
  | InvalidCalibrationValueError
  | InvalidTimeoutError
  deriving DecidableEq, Repr

/-- Outcome of bringing the configuration into existence.  The header has no
validation pass, so the outcome is the initialised objects for every input. -/
def initialise (l : ConfigLiterals) : Except ConfigError Globals :=
  Except.ok (globalsOf l)

/-! ## What an including translation unit can do with the objects -/

/-- Names of the thirteen objects. -/
inductive Var where
  | ssid | password | apiKey | channelId | bluetoothDeviceName
  | TEMP_OFFSET | HUMIDITY_OFFSET
  | SOIL_DRY_VALUE | SOIL_WET_VALUE
  | LCD_BACKLIGHT_TIMEOUT | MENU_TIMEOUT
  | WIFI_TIMEOUT | API_REQUEST_TIMEOUT
  deriving DecidableEq, Repr

/-- Declared types occurring in the header. -/
inductive CType where
  | constCharPtr
  | constFloat
  | constInt
  deriving DecidableEq, Repr

/-- Declared type of each object, as written in the header. -/
def declType : Var → CType
  | .ssid => .constCharPtr
  | .password => .constCharPtr
  | .apiKey => .constCharPtr
  | .channelId => .constCharPtr
  | .bluetoothDeviceName => .constCharPtr
  | .TEMP_OFFSET => .constFloat
  | .HUMIDITY_OFFSET => .constFloat
  | .SOIL_DRY_VALUE => .constInt
  | .SOIL_WET_VALUE => .constInt
  | .LCD_BACKLIGHT_TIMEOUT => .constInt
  | .MENU_TIMEOUT => .constInt
  | .WIFI_TIMEOUT => .constInt
  | .API_REQUEST_TIMEOUT => .constInt

/-- Whether an object of the given declared type is itself const-qualified.
In `const char* p` the qualifier belongs to the characters pointed to, and the
pointer `p` is an ordinary assignable object; `const float x` and `const int n`
are const objects. -/
def CType.objectIsConst : CType → Bool
  | .constCharPtr => false
  | .constFloat => true
  | .constInt => true

/-- Values an object can hold. -/
inductive Value where
  | text (s : String)
  | real (x : F32)
  | integer (z : Int)
  deriving DecidableEq, Repr

/-- Reading an object by name. -/
def read (g : Globals) : Var → Value
  | .ssid => .text g.ssid
  | .password => .text g.password
  | .apiKey => .text g.apiKey
  | .channelId => .text g.channelId
  | .bluetoothDeviceName => .text g.bluetoothDeviceName
  | .TEMP_OFFSET => .real g.TEMP_OFFSET
  | .HUMIDITY_OFFSET => .real g.HUMIDITY_OFFSET
  | .SOIL_DRY_VALUE => .integer g.SOIL_DRY_VALUE
  | .SOIL_WET_VALUE => .integer g.SOIL_WET_VALUE
  | .LCD_BACKLIGHT_TIMEOUT => .integer g.LCD_BACKLIGHT_TIMEOUT
  | .MENU_TIMEOUT => .integer g.MENU_TIMEOUT
  | .WIFI_TIMEOUT => .integer g.WIFI_TIMEOUT
  | .API_REQUEST_TIMEOUT => .integer g.API_REQUEST_TIMEOUT

/-- The assignment statement `v = x;` written by an including translation
unit.  It is rejected (`none`) when the object is const-qualified or the value
has the wrong type; otherwise the object holds `x` afterwards.  For a pointer
the new value is another string literal. -/
def assign (g : Globals) (v : Var) (x : Value) : Option Globals :=
  if (declType v).objectIsConst then none
  else
    match v, x with
    | .ssid, .text s => some { g with ssid := s }
    | .password, .text s => some { g with password := s }
    | .apiKey, .text s => some { g with apiKey := s }
    | .channelId, .text s => some { g with channelId := s }
    | .bluetoothDeviceName, .text s => some { g with bluetoothDeviceName := s }
    | _, _ => none

/-! ## Vocabulary of the specification, used only in statements -/

/-- Placeholder sentinel of `networkSsid`. -/
def ssidPlaceholder : String := "YOUR_WIFI_SSID"

/-- Placeholder sentinel of `networkPassword`. -/
def passwordPlaceholder : String := "YOUR_WIFI_PASSWORD"

/-- Placeholder sentinel of `apiKey`. -/
def apiKeyPlaceholder : String := "YOUR_YOUTUBE_API_KEY"

/-- Placeholder sentinel of `channelIdentifier`. -/
def channelIdPlaceholder : String := "YOUR_CHANNEL_ID"

/-- The four placeholder sentinels. -/
def placeholders : List String :=
  [ssidPlaceholder, passwordPlaceholder, apiKeyPlaceholder, channelIdPlaceholder]

/-- Largest reading of the 12-bit analog input the soil probe is wired to. -/
def ANALOG_MAX : Int := 4095

/-- The constraints of section 3 of the specification on a set of literals:
no critical field equal to its placeholder, non-empty texts, finite offsets
(the offset written is a real number), soil references different and within
the analog range, display timeouts non-negative, network timeouts positive. -/
def Section3Valid (l : ConfigLiterals) : Prop :=
  (l.ssid ≠ ssidPlaceholder ∧ l.password ≠ passwordPlaceholder ∧
    l.apiKey ≠ apiKeyPlaceholder ∧ l.channelId ≠ channelIdPlaceholder) ∧
  (l.ssid ≠ "" ∧ l.password ≠ "" ∧ l.apiKey ≠ "" ∧ l.channelId ≠ "" ∧
    l.bluetoothDeviceName ≠ "") ∧
  (l.TEMP_OFFSET.isFiniteReal = true ∧ l.HUMIDITY_OFFSET.isFiniteReal = true) ∧
  (l.SOIL_DRY_VALUE ≠ l.SOIL_WET_VALUE ∧
    0 ≤ l.SOIL_DRY_VALUE ∧ l.SOIL_DRY_VALUE ≤ ANALOG_MAX ∧
    0 ≤ l.SOIL_WET_VALUE ∧ l.SOIL_WET_VALUE ≤ ANALOG_MAX) ∧
  (0 ≤ l.LCD_BACKLIGHT_TIMEOUT ∧ 0 ≤ l.MENU_TIMEOUT) ∧
  (0 < l.WIFI_TIMEOUT ∧ 0 < l.API_REQUEST_TIMEOUT)

instance (l : ConfigLiterals) : Decidable (Section3Valid l) := by
  unfold Section3Valid; infer_instance

/-- A set of literals a deployer might write: every constraint of section 3 holds. -/
def configured : ConfigLiterals :=
  { ssid := "HomeNet"
    password := "correct horse"
    apiKey := "AIzaSyExample"
    channelId := "UC1234567890"
    bluetoothDeviceName := "ESP32_Dashboard"
    TEMP_OFFSET := minusOneAndHalfLiteral
    HUMIDITY_OFFSET := zeroLiteral
    SOIL_DRY_VALUE := 4095
    SOIL_WET_VALUE := 0
    LCD_BACKLIGHT_TIMEOUT := 30000
    MENU_TIMEOUT := 60000
    WIFI_TIMEOUT := 15000
    API_REQUEST_TIMEOUT := 10000 }

/-- Literals with both soil references equal to 2048; every other field as in `configured`. -/
def equalSoil : ConfigLiterals :=
  { configured with SOIL_DRY_VALUE := 2048, SOIL_WET_VALUE := 2048 }

/-- Literals with a zero WiFi timeout; every other field as in `configured`. -/
def zeroWifiTimeout : ConfigLiterals :=
  { configured with WIFI_TIMEOUT := 0 }

/-- Literals with a negative API request timeout; every other field as in `configured`. -/
def negativeApiTimeout : ConfigLiterals :=
  { configured with API_REQUEST_TIMEOUT := -1 }

/-- Literals with a NaN temperature offset; every other field as in `configured`. -/
def nanTemperature : ConfigLiterals :=
  { configured with TEMP_OFFSET := FloatInit.nan }

/-- Literals with an infinite humidity offset; every other field as in `configured`. -/
def infHumidity : ConfigLiterals :=
  { configured with HUMIDITY_OFFSET := FloatInit.infinity false }

/-- Literals with a temperature offset of `0.1`; every other field as in `configured`. -/
def tenthOffset : ConfigLiterals :=
  { configured with TEMP_OFFSET := tenthLiteral }

/-- Literals with a temperature offset of `1e39`; every other field as in `configured`. -/
def hugeOffset : ConfigLiterals :=
  { configured with TEMP_OFFSET := hugeLiteral }

/-- Literals whose only departure from section 3 is the placeholder API key,
with a temperature offset of `0.1`. -/
def placeholderKeyTenthOffset : ConfigLiterals :=
  { configured with apiKey := "YOUR_YOUTUBE_API_KEY", TEMP_OFFSET := tenthLiteral }

/-- The real number an offset initialiser denotes is a binary32 value: some
`float` pattern denotes the same number.  (For `NAN` and `INFINITY`, which
denote no real number, the pattern is the NaN or infinity itself.) -/
def FloatInit.Representable32 (i : FloatInit) : Prop :=
  ∃ x : F32, x.toRat? = i.value?

/-- Literals with a WiFi timeout of `2 ^ 31` ms, one more than the largest `int`;
every other field as in `configured`. -/
def hugeWifiTimeout : ConfigLiterals :=
  { configured with WIFI_TIMEOUT := 2147483648 }

/-- Literals whose only departure from section 3 is the placeholder API key,
with a WiFi timeout of `2 ^ 31` ms. -/
def placeholderKeyHugeTimeout : ConfigLiterals :=
  { configured with apiKey := "YOUR_YOUTUBE_API_KEY", WIFI_TIMEOUT := 2147483648 }

/-! ## Supporting lemmas -/

theorem toInt32_of_fits (z : Int) (h : fitsInt32 z) : toInt32 z = z := by
  unfold fitsInt32 at h
  unfold toInt32
  simp only [INT_BITS] at h ⊢
  norm_num at h ⊢
  omega

theorem initialise_ok (l : ConfigLiterals) : initialise l = Except.ok (globalsOf l) := rfl

theorem initialise_ne_error (l : ConfigLiterals) (e : ConfigError) :
    initialise l ≠ Except.error e := by
  intro h
  cases h

theorem fitsInt32_of_analog (z : Int) (h0 : 0 ≤ z) (h1 : z ≤ ANALOG_MAX) : fitsInt32 z := by
  unfold ANALOG_MAX at h1
  unfold fitsInt32
  simp only [INT_BITS]
  norm_num
  omega

/-- A const-qualified object accepts no assignment. -/
theorem assign_const_rejected (g : Globals) (v : Var) (x : Value)
    (h : (declType v).objectIsConst = true) : assign g v x = none := by
  simp [assign, h]

/-- An accepted assignment leaves every const-qualified object as it was. -/
theorem assign_keeps_const (g g' : Globals) (v w : Var) (x : Value)
    (ha : assign g v x = some g') (hw : (declType w).objectIsConst = true) :
    read g' w = read g w := by
  cases v <;> cases x <;> simp [assign, declType, CType.objectIsConst] at ha <;>
    subst ha <;> cases w <;> simp [declType, CType.objectIsConst] at hw <;> rfl

theorem ilog2Aux_spec : ∀ (fuel n : Nat), 0 < n → n < 2 ^ (fuel + 1) →
    2 ^ ilog2Aux fuel n ≤ n ∧ n < 2 ^ (ilog2Aux fuel n + 1)
  | 0, n, h0, h1 => by
      simp only [ilog2Aux]
      norm_num at h1 ⊢
      omega
  | fuel + 1, n, h0, h1 => by
      unfold ilog2Aux
      split
      · norm_num
        omega
      · have ih := ilog2Aux_spec fuel (n / 2) (by omega) (by rw [pow_succ] at h1; omega)
        rw [pow_succ, pow_succ (n := ilog2Aux fuel (n / 2) + 1)]
        rw [pow_succ] at ih
        omega

theorem ilog2_spec (n : Nat) (h : 0 < n) : 2 ^ ilog2 n ≤ n ∧ n < 2 ^ (ilog2 n + 1) :=
  ilog2Aux_spec n n h (lt_trans (Nat.lt_two_pow n) (Nat.pow_lt_pow_right (by decide) (Nat.lt_succ_self n)))

theorem ilog2_zero : ilog2 0 = 0 := rfl

theorem ilog2_eq (n k : Nat) (h1 : 2 ^ k ≤ n) (h2 : n < 2 ^ (k + 1)) : ilog2 n = k := by
  have hn : 0 < n := lt_of_lt_of_le (Nat.two_pow_pos k) h1
  obtain ⟨a, b⟩ := ilog2_spec n hn
  have c1 : ilog2 n < k + 1 := (Nat.pow_lt_pow_iff_right (by decide)).1 (lt_of_le_of_lt a h2)
  have c2 : k < ilog2 n + 1 := (Nat.pow_lt_pow_iff_right (by decide)).1 (lt_of_le_of_lt h1 b)
  omega

theorem ilog2_lt (n k : Nat) (h : n < 2 ^ (k + 1)) : ilog2 n ≤ k := by
  rcases Nat.eq_zero_or_pos n with h0 | h0
  · subst h0; simp [ilog2_zero]
  · obtain ⟨a, _⟩ := ilog2_spec n h0
    have c1 : ilog2 n < k + 1 := (Nat.pow_lt_pow_iff_right (by decide)).1 (lt_of_le_of_lt a h)
    omega

theorem roundHalfEven_mul (m c : Nat) (hc : 0 < c) : roundHalfEven (m * c) c = m := by
  unfold roundHalfEven
  simp [Nat.mul_mod_left, hc, Nat.mul_div_cancel]


theorem roundMagnitude_exact (p bias w a b m t : Nat) (hp : 1 ≤ p) (hb : 0 < b)
    (hA : a * 2 ^ (bias + p - 2) = m * 2 ^ t * b)
    (hm : m < 2 ^ p) (hnorm : 2 ^ (p - 1) ≤ m ∨ t = 0) (hover : t + 3 ≤ 2 ^ w) :
    roundMagnitude p bias w a b = t * 2 ^ (p - 1) + m := by
  have hpp : 2 ^ p = 2 ^ (p - 1) * 2 := by
    rw [← pow_succ]; congr 1; omega
  have hdiv : a * 2 ^ (bias + p - 2) / b = m * 2 ^ t := by
    rw [hA]; exact Nat.mul_div_cancel _ hb
  have ht : ilog2 (m * 2 ^ t) - (p - 1) = t := by
    rcases hnorm with h | h
    · have h1 : 2 ^ (p - 1 + t) ≤ m * 2 ^ t := by
        rw [pow_add]; exact Nat.mul_le_mul_right _ h
      have h2 : m * 2 ^ t < 2 ^ (p - 1 + t + 1) := by
        have : 2 ^ (p - 1 + t + 1) = 2 ^ p * 2 ^ t := by
          rw [← pow_add]; congr 1; omega
        rw [this]
        exact Nat.mul_lt_mul_of_pos_right hm (Nat.two_pow_pos t)
      rw [ilog2_eq _ _ h1 h2]; omega
    · subst h
      have : ilog2 (m * 2 ^ 0) ≤ p - 1 := by
        apply ilog2_lt
        have : p - 1 + 1 = p := by omega
        rw [this]; simpa using hm
      omega
  unfold roundMagnitude
  rw [hdiv, ht, hA]
  have hre : m * 2 ^ t * b = m * (b * 2 ^ t) := by ring
  rw [hre, roundHalfEven_mul _ _ (Nat.mul_pos hb (Nat.two_pow_pos t))]
  apply Nat.min_eq_left
  unfold infBits
  have h3 : (t + 2) * 2 ^ (p - 1) ≤ (2 ^ w - 1) * 2 ^ (p - 1) :=
    Nat.mul_le_mul_right _ (by omega)
  have h4 : t * 2 ^ (p - 1) + m ≤ (t + 2) * 2 ^ (p - 1) := by
    rw [Nat.add_mul]; omega
  exact le_trans h4 h3

theorem scaled_encode (p m t : Nat) (hp : 1 ≤ p) (hm : m < 2 ^ p)
    (hnorm : 2 ^ (p - 1) ≤ m ∨ t = 0) :
    scaled p (t * 2 ^ (p - 1) + m) = m * 2 ^ t := by
  have hpp : 2 ^ p = 2 ^ (p - 1) * 2 := by
    rw [← pow_succ]; congr 1; omega
  have hP : 0 < 2 ^ (p - 1) := Nat.two_pow_pos _
  by_cases h : 2 ^ (p - 1) ≤ m
  · obtain ⟨f, hf⟩ : ∃ f, m = 2 ^ (p - 1) + f := ⟨m - 2 ^ (p - 1), by omega⟩
    have hfl : f < 2 ^ (p - 1) := by omega
    have hbits : t * 2 ^ (p - 1) + m = f + 2 ^ (p - 1) * (t + 1) := by
      rw [hf]; ring
    unfold scaled
    rw [hbits, Nat.add_mul_div_left _ _ hP, Nat.add_mul_mod_self_left,
      Nat.div_eq_of_lt hfl, Nat.mod_eq_of_lt hfl]
    simp [hf]
  · have ht : t = 0 := by
      rcases hnorm with h' | h'
      · exact absurd h' h
      · exact h'
    subst ht
    have hml : m < 2 ^ (p - 1) := by omega
    unfold scaled
    simp [Nat.div_eq_of_lt hml, Nat.mod_eq_of_lt hml]

set_option exponentiation.threshold 1100 in
theorem floatBits_exact (a b m t : Nat) (hb : 0 < b)
    (hA : a * 2 ^ 149 = m * 2 ^ t * b) (hm : m < 2 ^ 24)
    (hnorm : 2 ^ 23 ≤ m ∨ t = 0) (ht : t ≤ 253) :
    floatBitsOfDouble (roundMagnitude 53 1023 11 a b) = t * 2 ^ 23 + m := by
  rcases Nat.eq_zero_or_pos m with h0 | h0
  · subst h0
    have ht0 : t = 0 := by
      rcases hnorm with h | h
      · norm_num at h
      · exact h
    subst ht0
    have ha : a = 0 := by
      simp at hA
      exact hA
    subst ha
    have h1 : roundMagnitude 53 1023 11 0 b = 0 * 2 ^ (53 - 1) + 0 :=
      roundMagnitude_exact 53 1023 11 0 b 0 0 (by decide) hb (by rw [Nat.zero_mul, Nat.zero_mul, Nat.zero_mul]) (by decide)
        (Or.inr rfl) (by decide)
    rw [h1]
    decide!
  · obtain ⟨hl1, hl2⟩ := ilog2_spec m h0
    have hl : ilog2 m ≤ 23 := ilog2_lt m 23 hm
    have e1 : 2 ^ (52 - ilog2 m) * 2 ^ (ilog2 m + t + 873) = 2 ^ t * 2 ^ 925 := by
      have : 52 - ilog2 m + (ilog2 m + t + 873) = t + 925 := by omega
      rw [← pow_add, ← pow_add, this]
    have e2 : (2 : Nat) ^ 1074 = 2 ^ 149 * 2 ^ 925 := by rw [← pow_add]
    have e3 : 2 ^ (ilog2 m) * 2 ^ (52 - ilog2 m) = 2 ^ 52 := by
      have : ilog2 m + (52 - ilog2 m) = 52 := by omega
      rw [← pow_add, this]
    have e4 : 2 ^ (ilog2 m + 1) * 2 ^ (52 - ilog2 m) = 2 ^ 53 := by
      have : ilog2 m + 1 + (52 - ilog2 m) = 53 := by omega
      rw [← pow_add, this]
    have key1 : ∀ x y c u v : Nat, a * x = m * y * b → u * v = y * c →
        a * (x * c) = m * u * v * b := by
      intro x y c u v h1 h2
      calc a * (x * c) = a * x * c := by ring
        _ = m * y * b * c := by rw [h1]
        _ = m * (y * c) * b := by ring
        _ = m * (u * v) * b := by rw [h2]
        _ = m * u * v * b := by ring
    have key2 : ∀ x y c u v : Nat, u * v = y * c →
        m * u * v * x = m * y * (x * c) := by
      intro x y c u v h2
      calc m * u * v * x = m * (u * v) * x := by ring
        _ = m * (y * c) * x := by rw [h2]
        _ = m * y * (x * c) := by ring
    have hM1 : 2 ^ 52 ≤ m * 2 ^ (52 - ilog2 m) := by
      rw [← e3]; exact Nat.mul_le_mul_right _ hl1
    have hM2 : m * 2 ^ (52 - ilog2 m) < 2 ^ 53 := by
      rw [← e4]; exact Nat.mul_lt_mul_of_pos_right hl2 (Nat.two_pow_pos _)
    have hA64 : a * 2 ^ (1023 + 53 - 2) =
        m * 2 ^ (52 - ilog2 m) * 2 ^ (ilog2 m + t + 873) * b := by
      rw [show (1023 + 53 - 2 : Nat) = 1074 from rfl, e2]
      exact key1 _ _ _ _ _ hA e1
    have h1 := roundMagnitude_exact 53 1023 11 a b (m * 2 ^ (52 - ilog2 m))
      (ilog2 m + t + 873) (by decide) hb hA64 hM2 (Or.inl hM1) (by norm_num; omega)
    have hne : roundMagnitude 53 1023 11 a b ≠ infBits 53 11 := by
      rw [h1]
      unfold infBits
      norm_num at hM2 ⊢
      omega
    unfold floatBitsOfDouble
    rw [if_neg hne, h1,
      scaled_encode 53 _ _ (by decide) hM2 (Or.inl hM1)]
    apply roundMagnitude_exact 24 127 8 _ _ m t (by decide) (Nat.two_pow_pos _) _ hm hnorm
      (by norm_num; omega)
    exact (key2 (2 ^ 149) (2 ^ t) (2 ^ 925) _ _ e1).trans
      (congrArg (fun z => m * 2 ^ t * z) e2.symm)


theorem scaled_decode (y : Nat) (hy : y / 2 ^ 23 ≤ 254) :
    ∃ m t, scaled 24 y = m * 2 ^ t ∧ m < 2 ^ 24 ∧ (2 ^ 23 ≤ m ∨ t = 0) ∧ t ≤ 253 := by
  by_cases h : y / 2 ^ 23 = 0
  · refine ⟨y % 2 ^ 23, 0, ?_, ?_, Or.inr rfl, by omega⟩
    · unfold scaled
      rw [if_pos h, pow_zero, Nat.mul_one]
    · omega
  · refine ⟨2 ^ 23 + y % 2 ^ 23, y / 2 ^ 23 - 1, ?_, ?_, Or.inl (by omega), by omega⟩
    · unfold scaled
      rw [if_neg h]
    · omega

theorem F32.toRat?_eq_scaled (y : F32) (h : y.exponent ≠ 255) :
    y.toRat? = some ((if y.sign = 1 then -1 else 1) *
      ((scaled 24 (y.bits % 2 ^ 31) : Nat) : ℚ) / 2 ^ 149) := by
  have hE : y.bits % 2 ^ 31 / 2 ^ (24 - 1) = y.exponent := by
    unfold F32.exponent; omega
  have hf : y.bits % 2 ^ 31 % 2 ^ (24 - 1) = y.fraction := by
    unfold F32.fraction; omega
  unfold F32.toRat? scaled
  rw [if_neg h, hE, hf]
  by_cases h0 : y.exponent = 0
  · simp only [h0, if_true]
    split <;> · congr 1; ring
  · simp only [h0, if_false]
    obtain ⟨k, hk⟩ : ∃ k, y.exponent = k + 1 := ⟨y.exponent - 1, by omega⟩
    rw [hk]
    simp only [Nat.add_sub_cancel]
    split <;> · congr 1; push_cast; ring


theorem cross_of_value (sx sd : Bool) (S n den : Nat) (hden : 0 < den)
    (h : (if sx then (-1 : ℚ) else 1) * (S : ℚ) / 2 ^ 149 =
      (if sd then (-1 : ℚ) else 1) * (n : ℚ) / (den : ℚ)) :
    n * 2 ^ 149 = S * den ∧ (sx = sd ∨ n = 0) := by
  have hd : (den : ℚ) ≠ 0 := by exact_mod_cast (Nat.pos_iff_ne_zero.mp hden)
  have hS : (0 : ℚ) ≤ (S : ℚ) * den := by positivity
  have hn : (0 : ℚ) ≤ (n : ℚ) * 2 ^ 149 := by positivity
  field_simp at h
  cases sx <;> cases sd <;> simp at h
  · refine ⟨?_, Or.inl rfl⟩
    have : ((n * 2 ^ 149 : Nat) : ℚ) = ((S * den : Nat) : ℚ) := by push_cast; linarith
    exact_mod_cast this
  · have h1 : (n : ℚ) * 2 ^ 149 = 0 := by linarith
    have h2 : (S : ℚ) * den = 0 := by linarith
    have h1' : n * 2 ^ 149 = 0 := by exact_mod_cast h1
    have h2' : S * den = 0 := by exact_mod_cast h2
    refine ⟨by rw [h1', h2'], Or.inr ?_⟩
    have := Nat.mul_eq_zero.mp h1'
    rcases this with h | h
    · exact h
    · exact absurd h (by positivity)
  · have h1 : (n : ℚ) * 2 ^ 149 = 0 := by linarith
    have h2 : (S : ℚ) * den = 0 := by linarith
    have h1' : n * 2 ^ 149 = 0 := by exact_mod_cast h1
    have h2' : S * den = 0 := by exact_mod_cast h2
    refine ⟨by rw [h1', h2'], Or.inr ?_⟩
    have := Nat.mul_eq_zero.mp h1'
    rcases this with h | h
    · exact h
    · exact absurd h (by positivity)
  · refine ⟨?_, Or.inl rfl⟩
    have : ((n * 2 ^ 149 : Nat) : ℚ) = ((S * den : Nat) : ℚ) := by push_cast; linarith
    exact_mod_cast this


theorem ratio_eq (s M n den : ℚ) (hd : den ≠ 0) (h : n * 2 ^ 149 = M * den) :
    s * M / 2 ^ 149 = s * n / den := by
  rw [div_eq_div_iff (by positivity) hd]
  linear_combination (-s) * h

theorem floatOfDecimal_exact (d : Decimal) (x : F32) (hx : x.toRat? = some d.value) :
    (floatOfDecimal d).toRat? = some d.value := by
  have hfin : x.exponent ≠ 255 := by
    intro h
    simp [F32.toRat?, h] at hx
  rw [F32.toRat?_eq_scaled x hfin] at hx
  have hE : x.bits % 2 ^ 31 / 2 ^ 23 ≤ 254 := by
    unfold F32.exponent at hfin; omega
  obtain ⟨m, t, hS, hm, hnorm, ht⟩ := scaled_decode _ hE
  have hden : 0 < d.den := by unfold Decimal.den; positivity
  have hx' : (if decide (x.sign = 1) then (-1 : ℚ) else 1) *
      ((scaled 24 (x.bits % 2 ^ 31) : Nat) : ℚ) / 2 ^ 149 =
      (if d.negative then (-1 : ℚ) else 1) * (d.num : ℚ) / (d.den : ℚ) := by
    have := Option.some.inj hx
    unfold Decimal.value at this
    simpa using this
  obtain ⟨hcross, _⟩ := cross_of_value _ _ _ _ _ hden hx'
  rw [hS] at hcross
  have hbits := floatBits_exact d.num d.den m t hden hcross hm hnorm ht
  have hr : t * 2 ^ 23 + m < 255 * 2 ^ 23 := by omega
  have hy : floatOfDecimal d = ⟨(if d.negative then 2 ^ 31 else 0) + (t * 2 ^ 23 + m)⟩ := by
    unfold floatOfDecimal doubleBits
    rw [hbits]
  have hmag : ((if d.negative then 2 ^ 31 else 0) + (t * 2 ^ 23 + m)) % 2 ^ 31 =
      t * 2 ^ (24 - 1) + m := by
    split <;> omega
  have hexp : (F32.mk ((if d.negative then 2 ^ 31 else 0) + (t * 2 ^ 23 + m))).exponent ≠ 255 := by
    unfold F32.exponent
    simp only
    split <;> omega
  have hsign : (F32.mk ((if d.negative then 2 ^ 31 else 0) + (t * 2 ^ 23 + m))).sign =
      if d.negative then 1 else 0 := by
    unfold F32.sign
    simp only
    split <;> omega
  rw [hy, F32.toRat?_eq_scaled _ hexp, hsign]
  simp only [hmag]
  rw [scaled_encode 24 m t (by decide) hm hnorm]
  unfold Decimal.value
  congr 1
  have hq : (d.num : ℚ) * 2 ^ 149 = (m : ℚ) * 2 ^ t * (d.den : ℚ) := by
    exact_mod_cast hcross
  have hd : (d.den : ℚ) ≠ 0 := by exact_mod_cast (Nat.pos_iff_ne_zero.mp hden)
  have hs : (if (if d.negative then 1 else 0) = 1 then (-1 : ℚ) else 1) =
      (if d.negative then -1 else 1) := by
    cases d.negative <;> simp
  rw [hs]
  push_cast
  exact ratio_eq _ _ _ _ hd hq

/-- Conversion is exact on every initialiser whose value is a binary32 value. -/
theorem toFloat32_exact (i : FloatInit) (h : i.Representable32) :
    (toFloat32 i).toRat? = i.value? := by
  cases i with
  | literal d =>
    obtain ⟨x, hx⟩ := h
    exact floatOfDecimal_exact d x hx
  | nan => rfl
  | infinity negative => cases negative <;> rfl

theorem toFloat32_zeroLiteral : toFloat32 zeroLiteral = F32.zero := by decide!

theorem toFloat32_minusOneAndHalfLiteral :
    toFloat32 minusOneAndHalfLiteral = F32.negOneAndHalf := by decide!

theorem toFloat32_tenthLiteral : toFloat32 tenthLiteral = F32.mk 0x3DCCCCCD := by decide!

theorem toFloat32_hugeLiteral : toFloat32 hugeLiteral = F32.posInf := by decide!

/-- The pattern `negOneAndHalf` denotes the number -3/2. -/
theorem negOneAndHalf_toRat : F32.negOneAndHalf.toRat? = some (-3 / 2) := by
  simp [F32.toRat?, F32.negOneAndHalf, F32.exponent, F32.fraction, F32.sign]
  norm_num

/-- The pattern `zero` denotes the number 0. -/
theorem zero_toRat : F32.zero.toRat? = some 0 := by
  simp [F32.toRat?, F32.zero, F32.exponent, F32.fraction, F32.sign]

/-- The pattern stored for `0.1` denotes 13421773 / 2 ^ 27. -/
theorem tenth_toRat : (F32.mk 0x3DCCCCCD).toRat? = some (13421773 / 134217728) := by
  simp [F32.toRat?, F32.exponent, F32.fraction, F32.sign]
  norm_num

theorem posInf_toRat : F32.posInf.toRat? = none := rfl

theorem value_zeroLiteral : zeroLiteral.value? = some 0 := by
  simp [zeroLiteral, FloatInit.value?, Decimal.value, Decimal.num, Decimal.den]

theorem value_minusOneAndHalfLiteral : minusOneAndHalfLiteral.value? = some (-3 / 2) := by
  simp [minusOneAndHalfLiteral, FloatInit.value?, Decimal.value, Decimal.num, Decimal.den]
  norm_num

theorem value_tenthLiteral : tenthLiteral.value? = some (1 / 10) := by
  simp [tenthLiteral, FloatInit.value?, Decimal.value, Decimal.num, Decimal.den]

theorem value_hugeLiteral : hugeLiteral.value? = some (10 ^ 39) := by
  simp [hugeLiteral, FloatInit.value?, Decimal.value, Decimal.num, Decimal.den]
  norm_num

theorem representable_zeroLiteral : zeroLiteral.Representable32 :=
  ⟨F32.zero, by rw [zero_toRat, value_zeroLiteral]⟩

theorem representable_minusOneAndHalfLiteral : minusOneAndHalfLiteral.Representable32 :=
  ⟨F32.negOneAndHalf, by rw [negOneAndHalf_toRat, value_minusOneAndHalfLiteral]⟩

/-! ## C1: placeholder credentials -/

/-- C1, as stated, fails on the header as shipped: all four critical fields hold
their placeholders, yet initialisation yields the objects and no
`UnconfiguredCredentialError` for any field name. -/
theorem C1_shipped_placeholders_not_rejected :
    shipped.ssid = ssidPlaceholder ∧ shipped.password = passwordPlaceholder ∧
    shipped.apiKey = apiKeyPlaceholder ∧ shipped.channelId = channelIdPlaceholder ∧
    initialise shipped = Except.ok (globalsOf shipped) ∧
    ¬ ∃ f, initialise shipped = Except.error (ConfigError.UnconfiguredCredentialError f) := by
  refine ⟨rfl, rfl, rfl, rfl, rfl, ?_⟩
  rintro ⟨f, hf⟩
  cases hf

/-- C1, amended: the header compares no field with a placeholder.  For every
configuration in which at least one critical field equals its placeholder,
whatever the other fields, initialisation raises no error and the four critical
objects hold exactly the literals written, placeholders included. -/
theorem C1_placeholders_stored_unchecked (l : ConfigLiterals)
    (h : l.ssid = ssidPlaceholder ∨ l.password = passwordPlaceholder ∨
      l.apiKey = apiKeyPlaceholder ∨ l.channelId = channelIdPlaceholder) :
    (∀ e, initialise l ≠ Except.error e) ∧
    ∃ g, initialise l = Except.ok g ∧ g.ssid = l.ssid ∧ g.password = l.password ∧
      g.apiKey = l.apiKey ∧ g.channelId = l.channelId ∧
      (g.ssid = ssidPlaceholder ∨ g.password = passwordPlaceholder ∨
        g.apiKey = apiKeyPlaceholder ∨ g.channelId = channelIdPlaceholder) :=
  ⟨initialise_ne_error l, globalsOf l, rfl, rfl, rfl, rfl, rfl, h⟩

/-- C1 witness: the shipped header. -/
theorem C1_placeholders_stored_unchecked_witness :
    (shipped.ssid = ssidPlaceholder ∨ shipped.password = passwordPlaceholder ∨
      shipped.apiKey = apiKeyPlaceholder ∨ shipped.channelId = channelIdPlaceholder) ∧
    ((∀ e, initialise shipped ≠ Except.error e) ∧
    ∃ g, initialise shipped = Except.ok g ∧ g.ssid = shipped.ssid ∧
      g.password = shipped.password ∧ g.apiKey = shipped.apiKey ∧
      g.channelId = shipped.channelId ∧
      (g.ssid = ssidPlaceholder ∨ g.password = passwordPlaceholder ∨
        g.apiKey = apiKeyPlaceholder ∨ g.channelId = channelIdPlaceholder)) :=
  ⟨Or.inl rfl, C1_placeholders_stored_unchecked shipped (Or.inl rfl)⟩

/-! ## C2: soil references -/

/-- C2, as stated, fails: with both soil references 2048 initialisation yields
the objects, both holding 2048, and no `InvalidCalibrationRangeError`. -/
theorem C2_equal_references_not_rejected :
    equalSoil.SOIL_DRY_VALUE = equalSoil.SOIL_WET_VALUE ∧
    initialise equalSoil ≠ Except.error ConfigError.InvalidCalibrationRangeError ∧
    ∃ g, initialise equalSoil = Except.ok g ∧
      g.SOIL_DRY_VALUE = 2048 ∧ g.SOIL_WET_VALUE = 2048 := by
  refine ⟨by decide, initialise_ne_error _ _, globalsOf equalSoil, rfl, by decide, by decide⟩

/-- C2, amended: the header does not compare the two soil references.  A
configuration with equal references is initialised without error and both
objects hold the same value; and for references 4095 and 0, whatever the other
fields, initialisation succeeds and the objects read 4095 and 0. -/
theorem C2_soil_references_unchecked (l : ConfigLiterals) :
    (l.SOIL_DRY_VALUE = l.SOIL_WET_VALUE →
      (∀ e, initialise l ≠ Except.error e) ∧
      ∃ g, initialise l = Except.ok g ∧ g.SOIL_DRY_VALUE = g.SOIL_WET_VALUE) ∧
    (l.SOIL_DRY_VALUE = 4095 → l.SOIL_WET_VALUE = 0 →
      ∃ g, initialise l = Except.ok g ∧ g.SOIL_DRY_VALUE = 4095 ∧ g.SOIL_WET_VALUE = 0) := by
  refine ⟨fun h => ⟨initialise_ne_error l, globalsOf l, rfl, ?_⟩,
    fun hd hw => ⟨globalsOf l, rfl, ?_, ?_⟩⟩
  · simp only [globalsOf, h]
  · simp only [globalsOf, hd]; decide
  · simp only [globalsOf, hw]; decide

/-- C2 witness: equal references 2048, and the references 4095 and 0. -/
theorem C2_soil_references_unchecked_witness :
    (equalSoil.SOIL_DRY_VALUE = equalSoil.SOIL_WET_VALUE ∧
      ((∀ e, initialise equalSoil ≠ Except.error e) ∧
      ∃ g, initialise equalSoil = Except.ok g ∧ g.SOIL_DRY_VALUE = g.SOIL_WET_VALUE)) ∧
    (configured.SOIL_DRY_VALUE = 4095 ∧ configured.SOIL_WET_VALUE = 0 ∧
      ∃ g, initialise configured = Except.ok g ∧
        g.SOIL_DRY_VALUE = 4095 ∧ g.SOIL_WET_VALUE = 0) :=
  ⟨⟨by decide, (C2_soil_references_unchecked equalSoil).1 (by decide)⟩,
   ⟨by decide, by decide,
    (C2_soil_references_unchecked configured).2 (by decide) (by decide)⟩⟩

/-! ## C3: network timeouts -/

/-- C3, as stated, fails: a WiFi timeout of zero and an API timeout of -1 are
both initialised without `InvalidTimeoutError` and stored as written. -/
theorem C3_nonpositive_timeout_not_rejected :
    zeroWifiTimeout.WIFI_TIMEOUT = 0 ∧
    initialise zeroWifiTimeout ≠ Except.error ConfigError.InvalidTimeoutError ∧
    (∃ g, initialise zeroWifiTimeout = Except.ok g ∧ g.WIFI_TIMEOUT = 0) ∧
    negativeApiTimeout.API_REQUEST_TIMEOUT = -1 ∧
    initialise negativeApiTimeout ≠ Except.error ConfigError.InvalidTimeoutError ∧
    (∃ g, initialise negativeApiTimeout = Except.ok g ∧ g.API_REQUEST_TIMEOUT = -1) := by
  refine ⟨by decide, initialise_ne_error _ _, ⟨globalsOf zeroWifiTimeout, rfl, by decide⟩,
    by decide, initialise_ne_error _ _, ⟨globalsOf negativeApiTimeout, rfl, by decide⟩⟩

/-- C3, amended: the header does not test the sign of a timeout.  A
configuration whose WiFi or API timeout is zero or negative is initialised
without error; and for a WiFi timeout of 15000, whatever the other fields,
initialisation succeeds and `WIFI_TIMEOUT` reads 15000. -/
theorem C3_timeouts_unchecked (l : ConfigLiterals) :
    ((l.WIFI_TIMEOUT ≤ 0 ∨ l.API_REQUEST_TIMEOUT ≤ 0) →
      (∀ e, initialise l ≠ Except.error e) ∧ ∃ g, initialise l = Except.ok g) ∧
    (l.WIFI_TIMEOUT = 15000 →
      ∃ g, initialise l = Except.ok g ∧ g.WIFI_TIMEOUT = 15000) := by
  refine ⟨fun _ => ⟨initialise_ne_error l, globalsOf l, rfl⟩,
    fun h => ⟨globalsOf l, rfl, ?_⟩⟩
  simp only [globalsOf, h]; decide

/-- C3 witness: a zero WiFi timeout, and the WiFi timeout 15000. -/
theorem C3_timeouts_unchecked_witness :
    ((zeroWifiTimeout.WIFI_TIMEOUT ≤ 0 ∨ zeroWifiTimeout.API_REQUEST_TIMEOUT ≤ 0) ∧
      ((∀ e, initialise zeroWifiTimeout ≠ Except.error e) ∧
        ∃ g, initialise zeroWifiTimeout = Except.ok g)) ∧
    (configured.WIFI_TIMEOUT = 15000 ∧
      ∃ g, initialise configured = Except.ok g ∧ g.WIFI_TIMEOUT = 15000) :=
  ⟨⟨Or.inl (by decide), (C3_timeouts_unchecked zeroWifiTimeout).1 (Or.inl (by decide))⟩,
   ⟨by decide, (C3_timeouts_unchecked configured).2 (by decide)⟩⟩

/-! ## C4: calibration offsets -/

/-- C4, as stated, fails: a temperature offset initialised with `NAN` and a
humidity offset initialised with `INFINITY` are both accepted without
`InvalidCalibrationValueError`, and the objects hold NaN and infinity. -/
theorem C4_nonfinite_offset_not_rejected :
    nanTemperature.TEMP_OFFSET = FloatInit.nan ∧
    initialise nanTemperature ≠ Except.error ConfigError.InvalidCalibrationValueError ∧
    (∃ g, initialise nanTemperature = Except.ok g ∧ g.TEMP_OFFSET.isNaN = true) ∧
    infHumidity.HUMIDITY_OFFSET = FloatInit.infinity false ∧
    initialise infHumidity ≠ Except.error ConfigError.InvalidCalibrationValueError ∧
    (∃ g, initialise infHumidity = Except.ok g ∧ g.HUMIDITY_OFFSET.isInf = true) := by
  refine ⟨rfl, initialise_ne_error _ _, ⟨globalsOf nanTemperature, rfl, by decide⟩,
    rfl, initialise_ne_error _ _, ⟨globalsOf infHumidity, rfl, by decide⟩⟩

/-- C4, amended: the header does not test an offset for finiteness.  A
configuration whose temperature or humidity offset is NaN or infinite as a
`float` (written `NAN` or `INFINITY`, or a literal beyond the `float` range) is
initialised without error and the objects hold those values; and for a
temperature offset of -1.5, whatever the other fields, initialisation succeeds
and `TEMP_OFFSET` reads -1.5 unchanged. -/
theorem C4_offsets_unchecked (l : ConfigLiterals) :
    (((toFloat32 l.TEMP_OFFSET).isFinite = false ∨
        (toFloat32 l.HUMIDITY_OFFSET).isFinite = false) →
      (∀ e, initialise l ≠ Except.error e) ∧
      ∃ g, initialise l = Except.ok g ∧ g.TEMP_OFFSET = toFloat32 l.TEMP_OFFSET ∧
        g.HUMIDITY_OFFSET = toFloat32 l.HUMIDITY_OFFSET ∧
        (g.TEMP_OFFSET.isFinite = false ∨ g.HUMIDITY_OFFSET.isFinite = false)) ∧
    (l.TEMP_OFFSET = minusOneAndHalfLiteral →
      ∃ g, initialise l = Except.ok g ∧ g.TEMP_OFFSET = F32.negOneAndHalf ∧
        g.TEMP_OFFSET.toRat? = some (-3 / 2) ∧
        g.TEMP_OFFSET.toRat? = l.TEMP_OFFSET.value?) := by
  refine ⟨fun h => ⟨initialise_ne_error l, globalsOf l, rfl, rfl, rfl, h⟩,
    fun h => ⟨globalsOf l, rfl, ?_, ?_, ?_⟩⟩
  · show toFloat32 l.TEMP_OFFSET = F32.negOneAndHalf
    rw [h]
    exact toFloat32_minusOneAndHalfLiteral
  · show (toFloat32 l.TEMP_OFFSET).toRat? = some (-3 / 2)
    rw [h, toFloat32_minusOneAndHalfLiteral]
    exact negOneAndHalf_toRat
  · show (toFloat32 l.TEMP_OFFSET).toRat? = l.TEMP_OFFSET.value?
    rw [h, toFloat32_minusOneAndHalfLiteral, negOneAndHalf_toRat,
      value_minusOneAndHalfLiteral]

/-- C4 witness: a NaN temperature offset, and the temperature offset -1.5. -/
theorem C4_offsets_unchecked_witness :
    (((toFloat32 nanTemperature.TEMP_OFFSET).isFinite = false ∨
        (toFloat32 nanTemperature.HUMIDITY_OFFSET).isFinite = false) ∧
      ((∀ e, initialise nanTemperature ≠ Except.error e) ∧
      ∃ g, initialise nanTemperature = Except.ok g ∧
        g.TEMP_OFFSET = toFloat32 nanTemperature.TEMP_OFFSET ∧
        g.HUMIDITY_OFFSET = toFloat32 nanTemperature.HUMIDITY_OFFSET ∧
        (g.TEMP_OFFSET.isFinite = false ∨ g.HUMIDITY_OFFSET.isFinite = false))) ∧
    (configured.TEMP_OFFSET = minusOneAndHalfLiteral ∧
      ∃ g, initialise configured = Except.ok g ∧ g.TEMP_OFFSET = F32.negOneAndHalf ∧
        g.TEMP_OFFSET.toRat? = some (-3 / 2) ∧
        g.TEMP_OFFSET.toRat? = configured.TEMP_OFFSET.value?) :=
  ⟨⟨Or.inl (by decide), (C4_offsets_unchecked nanTemperature).1 (Or.inl (by decide))⟩,
   ⟨rfl, (C4_offsets_unchecked configured).2 rfl⟩⟩

/-! ## C5: round trip -/

/-- C5, as stated, fails, in three ways.  A WiFi timeout literal of `2 ^ 31`
satisfies every constraint of section 3 (it is positive), yet the `int` object
initialised from it holds `-2 ^ 31`.  A temperature offset of `0.1` is a finite
real, yet the `float` object holds 13421773 / 2 ^ 27, which is not 1/10.  A
temperature offset of `1e39` is a finite real, yet the `float` object holds
infinity. -/
theorem C5_round_trip_fails_beyond_int :
    (Section3Valid hugeWifiTimeout ∧
      ∃ g, initialise hugeWifiTimeout = Except.ok g ∧
        g.WIFI_TIMEOUT = -2147483648 ∧ g.WIFI_TIMEOUT ≠ hugeWifiTimeout.WIFI_TIMEOUT) ∧
    (Section3Valid tenthOffset ∧ tenthOffset.TEMP_OFFSET.value? = some (1 / 10) ∧
      ∃ g, initialise tenthOffset = Except.ok g ∧
        g.TEMP_OFFSET.toRat? = some (13421773 / 134217728) ∧
        g.TEMP_OFFSET.toRat? ≠ tenthOffset.TEMP_OFFSET.value?) ∧
    (Section3Valid hugeOffset ∧ hugeOffset.TEMP_OFFSET.value? = some (10 ^ 39) ∧
      ∃ g, initialise hugeOffset = Except.ok g ∧
        g.TEMP_OFFSET.isInf = true ∧
        g.TEMP_OFFSET.toRat? ≠ hugeOffset.TEMP_OFFSET.value?) := by
  have h1 : (globalsOf tenthOffset).TEMP_OFFSET = F32.mk 0x3DCCCCCD := toFloat32_tenthLiteral
  have h2 : (globalsOf hugeOffset).TEMP_OFFSET = F32.posInf := toFloat32_hugeLiteral
  have v1 : tenthOffset.TEMP_OFFSET.value? = some (1 / 10) := value_tenthLiteral
  have v2 : hugeOffset.TEMP_OFFSET.value? = some (10 ^ 39) := value_hugeLiteral
  refine ⟨⟨by decide, globalsOf hugeWifiTimeout, rfl, by decide, by decide⟩,
    ⟨by decide, v1, globalsOf tenthOffset, rfl, ?_, ?_⟩,
    ⟨by decide, v2, globalsOf hugeOffset, rfl, ?_, ?_⟩⟩
  · rw [h1]; exact tenth_toRat
  · rw [h1, tenth_toRat, v1]; norm_num
  · rw [h2]; decide
  · rw [h2, posInf_toRat, v2]; simp

/-- C5, amended: for every set of literals that satisfies all the constraints
of section 3, whose four timeout literals fit a 32-bit `int` and whose two
offset literals denote binary32 values, initialisation succeeds and each of
the thirteen objects reads exactly the value supplied. -/
theorem C5_round_trip (l : ConfigLiterals) (hv : Section3Valid l)
    (hT : l.TEMP_OFFSET.Representable32) (hH : l.HUMIDITY_OFFSET.Representable32)
    (hb : fitsInt32 l.LCD_BACKLIGHT_TIMEOUT) (hm : fitsInt32 l.MENU_TIMEOUT)
    (hw : fitsInt32 l.WIFI_TIMEOUT) (ha : fitsInt32 l.API_REQUEST_TIMEOUT) :
    ∃ g, initialise l = Except.ok g ∧
      (g.ssid = l.ssid ∧ g.password = l.password) ∧
      (g.apiKey = l.apiKey ∧ g.channelId = l.channelId) ∧
      g.bluetoothDeviceName = l.bluetoothDeviceName ∧
      (g.TEMP_OFFSET.toRat? = l.TEMP_OFFSET.value? ∧
        g.HUMIDITY_OFFSET.toRat? = l.HUMIDITY_OFFSET.value? ∧
        g.SOIL_DRY_VALUE = l.SOIL_DRY_VALUE ∧ g.SOIL_WET_VALUE = l.SOIL_WET_VALUE) ∧
      (g.LCD_BACKLIGHT_TIMEOUT = l.LCD_BACKLIGHT_TIMEOUT ∧
        g.MENU_TIMEOUT = l.MENU_TIMEOUT) ∧
      (g.WIFI_TIMEOUT = l.WIFI_TIMEOUT ∧
        g.API_REQUEST_TIMEOUT = l.API_REQUEST_TIMEOUT) := by
  obtain ⟨_, _, _, ⟨_, hd0, hd1, hw0, hw1⟩, _, _⟩ := hv
  exact ⟨globalsOf l, rfl, ⟨rfl, rfl⟩, ⟨rfl, rfl⟩, rfl,
    ⟨toFloat32_exact _ hT, toFloat32_exact _ hH,
      toInt32_of_fits _ (fitsInt32_of_analog _ hd0 hd1),
      toInt32_of_fits _ (fitsInt32_of_analog _ hw0 hw1)⟩,
    ⟨toInt32_of_fits _ hb, toInt32_of_fits _ hm⟩,
    ⟨toInt32_of_fits _ hw, toInt32_of_fits _ ha⟩⟩

/-- C5 witness: the literals of `configured`, with offsets -1.5 and 0.0. -/
theorem C5_round_trip_witness :
    Section3Valid configured ∧
    configured.TEMP_OFFSET.Representable32 ∧ configured.HUMIDITY_OFFSET.Representable32 ∧
    fitsInt32 configured.LCD_BACKLIGHT_TIMEOUT ∧ fitsInt32 configured.MENU_TIMEOUT ∧
    fitsInt32 configured.WIFI_TIMEOUT ∧ fitsInt32 configured.API_REQUEST_TIMEOUT ∧
    ∃ g, initialise configured = Except.ok g ∧
      (g.ssid = configured.ssid ∧ g.password = configured.password) ∧
      (g.apiKey = configured.apiKey ∧ g.channelId = configured.channelId) ∧
      g.bluetoothDeviceName = configured.bluetoothDeviceName ∧
      (g.TEMP_OFFSET.toRat? = configured.TEMP_OFFSET.value? ∧
        g.HUMIDITY_OFFSET.toRat? = configured.HUMIDITY_OFFSET.value? ∧
        g.SOIL_DRY_VALUE = configured.SOIL_DRY_VALUE ∧
        g.SOIL_WET_VALUE = configured.SOIL_WET_VALUE) ∧
      (g.LCD_BACKLIGHT_TIMEOUT = configured.LCD_BACKLIGHT_TIMEOUT ∧
        g.MENU_TIMEOUT = configured.MENU_TIMEOUT) ∧
      (g.WIFI_TIMEOUT = configured.WIFI_TIMEOUT ∧
        g.API_REQUEST_TIMEOUT = configured.API_REQUEST_TIMEOUT) :=
  ⟨by decide, representable_minusOneAndHalfLiteral, representable_zeroLiteral,
   by decide, by decide, by decide, by decide,
   C5_round_trip configured (by decide) representable_minusOneAndHalfLiteral
     representable_zeroLiteral (by decide) (by decide) (by decide) (by decide)⟩

/-! ## C6: immutability -/

/-- C6 at the failing input: after the header as shipped, the statement
`ssid = "Other";` is accepted, and `ssid` then reads "Other" instead of the
value it was initialised with.  The same holds for the other four
`const char*` objects, and a second read after the assignment differs from the
first read before it. -/
theorem C6_text_pointers_are_assignable :
    read (globalsOf shipped) Var.ssid = Value.text "YOUR_WIFI_SSID" ∧
    (∃ g, assign (globalsOf shipped) Var.ssid (Value.text "Other") = some g ∧
      read g Var.ssid = Value.text "Other" ∧
      read g Var.ssid ≠ read (globalsOf shipped) Var.ssid) ∧
    (∃ g, assign (globalsOf shipped) Var.password (Value.text "Other") = some g ∧
      read g Var.password ≠ read (globalsOf shipped) Var.password) ∧
    (∃ g, assign (globalsOf shipped) Var.apiKey (Value.text "Other") = some g ∧
      read g Var.apiKey ≠ read (globalsOf shipped) Var.apiKey) ∧
    (∃ g, assign (globalsOf shipped) Var.channelId (Value.text "Other") = some g ∧
      read g Var.channelId ≠ read (globalsOf shipped) Var.channelId) ∧
    (∃ g, assign (globalsOf shipped) Var.bluetoothDeviceName (Value.text "Other") = some g ∧
      read g Var.bluetoothDeviceName ≠ read (globalsOf shipped) Var.bluetoothDeviceName) := by
  refine ⟨rfl, ⟨_, rfl, rfl, by decide⟩, ⟨_, rfl, by decide⟩, ⟨_, rfl, by decide⟩,
    ⟨_, rfl, by decide⟩, ⟨_, rfl, by decide⟩⟩

/-! ## C7: group isolation -/

/-- C7, as stated, fails.  The shipped header has an unconfigured API key, yet
no group is reported as failed: initialisation raises no error and the
credential objects read the placeholders.  And of two configurations whose
only departure from section 3 is the placeholder API key, the one with a WiFi
timeout literal of `2 ^ 31` does not yield the supplied timing value, and the
one with a temperature offset of `0.1` does not yield the supplied calibration
value. -/
theorem C7_no_group_reported_failed :
    shipped.apiKey = apiKeyPlaceholder ∧
    (¬ ∃ e, initialise shipped = Except.error e) ∧
    (∃ g, initialise shipped = Except.ok g ∧ g.apiKey = apiKeyPlaceholder) ∧
    (placeholderKeyHugeTimeout.apiKey = apiKeyPlaceholder ∧
      Section3Valid { placeholderKeyHugeTimeout with apiKey := "AIzaSyExample" } ∧
      ∃ g, initialise placeholderKeyHugeTimeout = Except.ok g ∧
        g.WIFI_TIMEOUT ≠ placeholderKeyHugeTimeout.WIFI_TIMEOUT) ∧
    (placeholderKeyTenthOffset.apiKey = apiKeyPlaceholder ∧
      Section3Valid { placeholderKeyTenthOffset with apiKey := "AIzaSyExample" } ∧
      ∃ g, initialise placeholderKeyTenthOffset = Except.ok g ∧
        g.TEMP_OFFSET.toRat? ≠ placeholderKeyTenthOffset.TEMP_OFFSET.value?) := by
  have h1 : (globalsOf placeholderKeyTenthOffset).TEMP_OFFSET = F32.mk 0x3DCCCCCD :=
    toFloat32_tenthLiteral
  have v1 : placeholderKeyTenthOffset.TEMP_OFFSET.value? = some (1 / 10) :=
    value_tenthLiteral
  refine ⟨rfl, ?_, ⟨globalsOf shipped, rfl, rfl⟩,
    ⟨rfl, by decide, globalsOf placeholderKeyHugeTimeout, rfl, by decide⟩,
    ⟨rfl, by decide, globalsOf placeholderKeyTenthOffset, rfl, ?_⟩⟩
  · rintro ⟨e, he⟩
    cases he
  · rw [h1, tenth_toRat, v1]; norm_num

/-- C7, amended: the header reports no failure for any group.  For every
configuration in which a critical field equals its placeholder, whose six
integer literals fit a 32-bit `int` and whose two offset literals denote
binary32 values, the calibration and timing objects hold the supplied values,
and the credential objects hold the literals as written, placeholders
included, with no error raised. -/
theorem C7_calibration_and_timing_available (l : ConfigLiterals)
    (h : l.ssid = ssidPlaceholder ∨ l.password = passwordPlaceholder ∨
      l.apiKey = apiKeyPlaceholder ∨ l.channelId = channelIdPlaceholder)
    (hT : l.TEMP_OFFSET.Representable32) (hH : l.HUMIDITY_OFFSET.Representable32)
    (hd : fitsInt32 l.SOIL_DRY_VALUE) (hs : fitsInt32 l.SOIL_WET_VALUE)
    (hb : fitsInt32 l.LCD_BACKLIGHT_TIMEOUT) (hm : fitsInt32 l.MENU_TIMEOUT)
    (hw : fitsInt32 l.WIFI_TIMEOUT) (ha : fitsInt32 l.API_REQUEST_TIMEOUT) :
    (∀ e, initialise l ≠ Except.error e) ∧
    ∃ g, initialise l = Except.ok g ∧
      (g.TEMP_OFFSET.toRat? = l.TEMP_OFFSET.value? ∧
        g.HUMIDITY_OFFSET.toRat? = l.HUMIDITY_OFFSET.value? ∧
        g.SOIL_DRY_VALUE = l.SOIL_DRY_VALUE ∧ g.SOIL_WET_VALUE = l.SOIL_WET_VALUE) ∧
      (g.LCD_BACKLIGHT_TIMEOUT = l.LCD_BACKLIGHT_TIMEOUT ∧
        g.MENU_TIMEOUT = l.MENU_TIMEOUT) ∧
      (g.WIFI_TIMEOUT = l.WIFI_TIMEOUT ∧
        g.API_REQUEST_TIMEOUT = l.API_REQUEST_TIMEOUT) ∧
      (g.ssid = l.ssid ∧ g.password = l.password ∧ g.apiKey = l.apiKey ∧
        g.channelId = l.channelId) ∧
      (g.ssid = ssidPlaceholder ∨ g.password = passwordPlaceholder ∨
        g.apiKey = apiKeyPlaceholder ∨ g.channelId = channelIdPlaceholder) :=
  ⟨initialise_ne_error l, globalsOf l, rfl,
    ⟨toFloat32_exact _ hT, toFloat32_exact _ hH,
      toInt32_of_fits _ hd, toInt32_of_fits _ hs⟩,
    ⟨toInt32_of_fits _ hb, toInt32_of_fits _ hm⟩,
    ⟨toInt32_of_fits _ hw, toInt32_of_fits _ ha⟩,
    ⟨rfl, rfl, rfl, rfl⟩, h⟩

/-- C7 witness: the shipped header, whose API key is the placeholder and whose
offsets are both 0.0. -/
theorem C7_calibration_and_timing_available_witness :
    shipped.apiKey = apiKeyPlaceholder ∧
    shipped.TEMP_OFFSET.Representable32 ∧ shipped.HUMIDITY_OFFSET.Representable32 ∧
    (∀ e, initialise shipped ≠ Except.error e) ∧
    ∃ g, initialise shipped = Except.ok g ∧
      (g.TEMP_OFFSET.toRat? = shipped.TEMP_OFFSET.value? ∧
        g.HUMIDITY_OFFSET.toRat? = shipped.HUMIDITY_OFFSET.value? ∧
        g.SOIL_DRY_VALUE = 4095 ∧ g.SOIL_WET_VALUE = 0) ∧
      (g.LCD_BACKLIGHT_TIMEOUT = 30000 ∧ g.MENU_TIMEOUT = 60000) ∧
      (g.WIFI_TIMEOUT = 15000 ∧ g.API_REQUEST_TIMEOUT = 10000) ∧
      (g.ssid = shipped.ssid ∧ g.password = shipped.password ∧
        g.apiKey = shipped.apiKey ∧ g.channelId = shipped.channelId) ∧
      (g.ssid = ssidPlaceholder ∨ g.password = passwordPlaceholder ∨
        g.apiKey = apiKeyPlaceholder ∨ g.channelId = channelIdPlaceholder) :=
  ⟨rfl, representable_zeroLiteral, representable_zeroLiteral,
   C7_calibration_and_timing_available shipped (Or.inr (Or.inr (Or.inl rfl)))
    representable_zeroLiteral representable_zeroLiteral
    (by decide) (by decide) (by decide) (by decide) (by decide) (by decide)⟩

/-! ## C8, C9, C10: the shipped constants -/

/-- C8: the calibration constants of the shipped header meet every calibration
constraint of section 3.  Both offsets are the pattern of 0.0, which denotes
zero and is finite; `SOIL_DRY_VALUE` is 4095 and `SOIL_WET_VALUE` is 0, both
within the analog range 0..4095; the two differ, and the calibration span
`SOIL_DRY_VALUE - SOIL_WET_VALUE` is 4095, hence not zero. -/
theorem C8_shipped_calibration_valid :
    (globalsOf shipped).TEMP_OFFSET = F32.zero ∧
    (globalsOf shipped).HUMIDITY_OFFSET = F32.zero ∧
    F32.zero.toRat? = some 0 ∧
    (globalsOf shipped).TEMP_OFFSET.isFinite = true ∧
    (globalsOf shipped).HUMIDITY_OFFSET.isFinite = true ∧
    (globalsOf shipped).SOIL_DRY_VALUE = 4095 ∧
    (globalsOf shipped).SOIL_WET_VALUE = 0 ∧
    (0 ≤ (globalsOf shipped).SOIL_DRY_VALUE ∧
      (globalsOf shipped).SOIL_DRY_VALUE ≤ ANALOG_MAX) ∧
    (0 ≤ (globalsOf shipped).SOIL_WET_VALUE ∧
      (globalsOf shipped).SOIL_WET_VALUE ≤ ANALOG_MAX) ∧
    (globalsOf shipped).SOIL_DRY_VALUE ≠ (globalsOf shipped).SOIL_WET_VALUE ∧
    (globalsOf shipped).SOIL_DRY_VALUE - (globalsOf shipped).SOIL_WET_VALUE = 4095 ∧
    (globalsOf shipped).SOIL_DRY_VALUE - (globalsOf shipped).SOIL_WET_VALUE ≠ 0 := by
  have hT : (globalsOf shipped).TEMP_OFFSET = F32.zero := toFloat32_zeroLiteral
  have hH : (globalsOf shipped).HUMIDITY_OFFSET = F32.zero := toFloat32_zeroLiteral
  refine ⟨hT, hH, zero_toRat, ?_, ?_, by decide, by decide, by decide, by decide,
    by decide, by decide, by decide⟩
  · rw [hT]; decide
  · rw [hH]; decide

/-- C9: the timing constants of the shipped header meet every timing constraint
of section 3.  `LCD_BACKLIGHT_TIMEOUT` (30000) and `MENU_TIMEOUT` (60000) are
non-negative, `WIFI_TIMEOUT` (15000) and `API_REQUEST_TIMEOUT` (10000) are
strictly positive, and each literal fits a 32-bit signed `int`, so that the
stored constant equals the written literal. -/
theorem C9_shipped_timing_valid :
    ((globalsOf shipped).LCD_BACKLIGHT_TIMEOUT = 30000 ∧
      (globalsOf shipped).MENU_TIMEOUT = 60000 ∧
      (globalsOf shipped).WIFI_TIMEOUT = 15000 ∧
      (globalsOf shipped).API_REQUEST_TIMEOUT = 10000) ∧
    (0 ≤ (globalsOf shipped).LCD_BACKLIGHT_TIMEOUT ∧ 0 ≤ (globalsOf shipped).MENU_TIMEOUT) ∧
    (0 < (globalsOf shipped).WIFI_TIMEOUT ∧ 0 < (globalsOf shipped).API_REQUEST_TIMEOUT) ∧
    (fitsInt32 shipped.LCD_BACKLIGHT_TIMEOUT ∧ fitsInt32 shipped.MENU_TIMEOUT ∧
      fitsInt32 shipped.WIFI_TIMEOUT ∧ fitsInt32 shipped.API_REQUEST_TIMEOUT) ∧
    ((globalsOf shipped).LCD_BACKLIGHT_TIMEOUT = shipped.LCD_BACKLIGHT_TIMEOUT ∧
      (globalsOf shipped).MENU_TIMEOUT = shipped.MENU_TIMEOUT ∧
      (globalsOf shipped).WIFI_TIMEOUT = shipped.WIFI_TIMEOUT ∧
      (globalsOf shipped).API_REQUEST_TIMEOUT = shipped.API_REQUEST_TIMEOUT) := by
  refine ⟨⟨?_, ?_, ?_, ?_⟩, ⟨?_, ?_⟩, ⟨?_, ?_⟩, ⟨?_, ?_, ?_, ?_⟩, ⟨?_, ?_, ?_, ?_⟩⟩ <;> decide

/-- C10: `bluetoothDeviceName` of the shipped header is the fixed label
"ESP32_Dashboard"; it is non-empty and is none of the four placeholder
sentinels, so the Bluetooth object is valid as shipped. -/
theorem C10_shipped_bluetooth_name_valid :
    shipped.bluetoothDeviceName = "ESP32_Dashboard" ∧
    (globalsOf shipped).bluetoothDeviceName = "ESP32_Dashboard" ∧
    read (globalsOf shipped) Var.bluetoothDeviceName = Value.text "ESP32_Dashboard" ∧
    (globalsOf shipped).bluetoothDeviceName ≠ "" ∧
    0 < (globalsOf shipped).bluetoothDeviceName.length ∧
    (globalsOf shipped).bluetoothDeviceName ∉ placeholders := by
  refine ⟨rfl, rfl, rfl, by decide, by decide, by decide⟩

end SmartHab
